import Mathlib

/-!
# Verification of the reel-downloader frontend core logic

A shallow embedding of the repository's core logic:

* the remote API client (`src/constants/api.ts`): request construction,
  timeout/transport handling and HTTP error classification;
* the cookie session store (`src/contexts/session-context.tsx`);
* the download-history store (history context);
* the home-screen download orchestrator (URL validation, metadata fetch,
  download flow and input editing);
* the manual cookie import (session screen).

Asynchronous network and device calls are modelled by passing the outcome of
the call (`HttpResult`, `DownloadEnv`, ...) as an explicit argument, so every
handler becomes a pure function from the current component state and the
environment's responses to the next state.
-/

namespace ReelDownloader

/-! ## String primitives

Structurally recursive counterparts of the JavaScript string operations the
source uses (`trim`, `startsWith`, `split`, `toUpperCase`, `join`).  They
work on the character list of the string, so that every model definition
evaluates by kernel reduction on concrete inputs. -/

/-- JS `String.prototype.trim` on a character list: strip leading and
trailing whitespace. -/
def trimChars (l : List Char) : List Char :=
  ((l.dropWhile Char.isWhitespace).reverse.dropWhile Char.isWhitespace).reverse

/-- JS `s.trim()`. -/
def strTrim (s : String) : String :=
  String.mk (trimChars s.data)

/-- JS `s.startsWith(p)`. -/
def strStartsWith (s p : String) : Bool :=
  p.data.isPrefixOf s.data

/-- Drop the first `n` characters. -/
def strDrop (s : String) (n : Nat) : String :=
  String.mk (s.data.drop n)

/-- Character count. -/
def strLength (s : String) : Nat :=
  s.data.length

/-- JS `s.split(sep)` for a one-character separator, on character lists:
always returns at least one (possibly empty) piece. -/
def splitOnChar (sep : Char) : List Char → List (List Char)
  | [] => [[]]
  | c :: cs =>
    let rest := splitOnChar sep cs
    if c == sep then [] :: rest
    else
      match rest with
      | [] => [[c]]
      | r :: rs => (c :: r) :: rs

/-- JS `s.split(sep)` for a one-character separator. -/
def strSplitOn (s : String) (sep : Char) : List String :=
  (splitOnChar sep s.data).map String.mk

/-- JS `s.toUpperCase()` (ASCII, as used on `TRUE`/`FALSE` flags). -/
def strToUpper (s : String) : String :=
  String.mk (s.data.map Char.toUpper)

/-- JS `Array.prototype.join(sep)`. -/
def strJoin (sep : String) : List String → String
  | [] => ""
  | [x] => x
  | x :: xs => x ++ sep ++ strJoin sep xs

/-! ## Data model (`src/constants/api.ts`, contexts) -/

/-- `ReelInfo` from `src/constants/api.ts`: metadata returned by `POST /info`. -/
structure ReelInfo where
  title : String
  thumbnail : String
  duration : Nat
  video_url : String
  uploader : String
deriving DecidableEq, Repr

/-- The `ApiError` class from `src/constants/api.ts`: a numeric HTTP status
(0 for transport failures) together with the user-facing message. -/
structure ApiError where
  status : Nat
  message : String
deriving DecidableEq, Repr

/-- `getErrorMessage` from `src/constants/api.ts`: fixed user-facing messages
for 422/403/404/500, the supplied fallback otherwise. -/
def getErrorMessage (status : Nat) (fallback : String) : String :=
  if status = 422 then "URL no valida. Asegurate de que sea un enlace de Instagram Reel."
  else if status = 403 then "Este Reel es privado o requiere inicio de sesion."
  else if status = 404 then "Reel no encontrado. Verifica el enlace e intenta de nuevo."
  else if status = 500 then "Error en el servidor. Intenta de nuevo mas tarde."
  else fallback

/-- The body of a request built by the API client.  `jsonUrl u` stands for
`JSON.stringify ({url: u})`, the only body shape the client ever sends. -/
inductive RequestBody where
  | jsonUrl (url : String)
deriving DecidableEq, Repr

/-- An HTTP request as assembled by the API client (`fetchWithTimeout` call
sites in `src/constants/api.ts`).  `path` is relative to `API_BASE_URL`. -/
structure HttpRequest where
  method : String
  path : String
  headers : List (String × String)
  body : RequestBody
deriving DecidableEq, Repr

/-- The request issued by `fetchReelInfo` in `src/constants/api.ts`
(lines 84-95): `POST /info`, a lone `Content-Type` header, body
`JSON.stringify ({url})`.  The function's signature has no cookie-header
parameter, so the request cannot depend on one. -/
def infoRequest (url : String) : HttpRequest :=
  { method := "POST"
    path := "/info"
    headers := [("Content-Type", "application/json")]
    body := .jsonUrl url }

/-- The request issued by `downloadReelBinary` in `src/constants/api.ts`
(lines 120-133): `POST /download` with the same headers and body shape as
`infoRequest`, and likewise no cookie-header parameter. -/
def downloadRequest (url : String) : HttpRequest :=
  { method := "POST"
    path := "/download"
    headers := [("Content-Type", "application/json")]
    body := .jsonUrl url }

/-- The outcome of one `fetchWithTimeout` call.  `failure` covers every case
where the request never yields a response (connection failure, or the
5s/15s/120s abort timer firing, which rejects the fetch the same way).
`response status detail payload` is a received HTTP response: `detail` is the
`detail` field of the JSON error body (`none` when the body is not parsable
JSON with a string `detail`), and `payload` the successfully parsed success
body.  Per the backend contract (`GET /` and `POST /info` return JSON,
`POST /download` returns bytes), a 2xx response carries a parsable payload. -/
inductive HttpResult (α : Type) where
  | failure
  | response (status : Nat) (detail : Option String) (payload : α)
deriving DecidableEq, Repr

/-- `Response.ok` of the fetch API: status in the 2xx range. -/
def respOk (status : Nat) : Bool :=
  decide (200 ≤ status) && decide (status < 300)

/-- The transport-failure message thrown by `fetchReelInfo` and
`downloadReelBinary` when the request never reaches the server. -/
def serverUnreachableMessage : String :=
  "No se pudo conectar al servidor. Verifica que este encendido y en la misma red."

/-- Generic fallback used when the error body carries no detail. -/
def unknownErrorDetail : String := "Error desconocido."

/-- `fetchReelInfo` from `src/constants/api.ts` (lines 84-118), as a function
of the network outcome: transport failure becomes `ApiError 0`, a non-2xx
response becomes `ApiError status` with the `getErrorMessage` mapping applied
to the server detail (or the generic fallback), and a 2xx response returns
the parsed `ReelInfo`. -/
def fetchReelInfo (url : String) (net : HttpResult ReelInfo) : Except ApiError ReelInfo :=
  match net with
  | .failure => .error ⟨0, serverUnreachableMessage⟩
  | .response status detail payload =>
    if respOk status then .ok payload
    else .error ⟨status, getErrorMessage status (detail.getD unknownErrorDetail)⟩

/-- `downloadReelBinary` from `src/constants/api.ts` (lines 120-161) with the
same transport/error classification as `fetchReelInfo`.  The success payload
(blob plus `Content-Disposition` filename) is abstracted to `Unit`: no claim
concerns the returned bytes or filename derivation. -/
def downloadReelBinary (url : String) (net : HttpResult Unit) : Except ApiError Unit :=
  match net with
  | .failure => .error ⟨0, serverUnreachableMessage⟩
  | .response status detail payload =>
    if respOk status then .ok payload
    else .error ⟨status, getErrorMessage status (detail.getD unknownErrorDetail)⟩

/-- Outcome of the health-check `GET /`: either a transport failure/timeout,
or a response with its status and the JSON body's `status` field
(outer `none`: body not parsable JSON, so `response.json()` throws;
inner `none`: JSON body without a string `status` field). -/
inductive HealthNet where
  | failure
  | response (status : Nat) (body : Option (Option String))
deriving DecidableEq, Repr

/-- `checkServerHealth` from `src/constants/api.ts` (lines 68-82): `true` iff
the response is 2xx and its JSON body's `status` field equals `"ok"`; every
failure path (transport, timeout, non-2xx, malformed body) is caught and
yields `false`. -/
def checkServerHealth : HealthNet → Bool
  | .failure => false
  | .response status body =>
    if respOk status then
      match body with
      | none => false
      | some field => field == some "ok"
    else false

/-! ## Cookie session store (`src/contexts/session-context.tsx`) -/

/-- `InstagramCookie` from `src/contexts/session-context.tsx`. -/
structure InstagramCookie where
  name : String
  value : String
  domain : String
  path : String
  secure : Bool
  httpOnly : Bool
  expires : Option String := none
deriving DecidableEq, Repr

/-- `SessionState` from `src/contexts/session-context.tsx`. -/
structure SessionState where
  cookies : List InstagramCookie
  username : Option String
deriving DecidableEq, Repr

/-- `saveCookies` (lines 75-86): replaces the whole session; the username is
the explicit argument if present, else the value of a `ds_user_id` cookie,
else `none`. -/
def saveCookies (cookies : List InstagramCookie) (username : Option String) : SessionState :=
  let dsUser := cookies.find? fun c => c.name == "ds_user_id"
  { cookies := cookies
    username := username <|> dsUser.map fun c => c.value }

/-- `clearSession` (lines 88-91): resets the in-memory session to empty
(and deletes the persisted record, which lives outside this model). -/
def clearSession : SessionState :=
  { cookies := [], username := none }

/-- `isLoggedIn` (lines 108-110): a `sessionid` cookie with a truthy
(non-empty) value exists. -/
def isLoggedIn (s : SessionState) : Bool :=
  s.cookies.any fun c => c.name == "sessionid" && c.value != ""

/-- One line of `cookiesForApi` (lines 96-103): Netscape cookie-file format,
with an empty domain defaulted to `.instagram.com` and an empty path to `/`. -/
def cookieLine (c : InstagramCookie) : String :=
  let domain := if c.domain = "" then ".instagram.com" else c.domain
  let subdomains := if strStartsWith domain "." then "TRUE" else "FALSE"
  let path := if c.path = "" then "/" else c.path
  let secure := if c.secure then "TRUE" else "FALSE"
  domain ++ "\t" ++ subdomains ++ "\t" ++ path ++ "\t" ++ secure ++ "\t" ++ "0"
    ++ "\t" ++ c.name ++ "\t" ++ c.value

/-- `cookiesForApi` (lines 93-106): `none` (i.e. `undefined`) when the cookie
set is empty, else the cookie lines joined by newlines. -/
def cookiesForApi (s : SessionState) : Option String :=
  if s.cookies.isEmpty then none
  else some (strJoin "\n" (s.cookies.map cookieLine))

/-! ## History store (history context) -/

/-- `DownloadRecord` from the history context. -/
structure DownloadRecord where
  id : String
  url : String
  title : String
  uploader : String
  thumbnail : String
  duration : Nat
  downloadedAt : Nat
deriving DecidableEq, Repr

/-- The argument of `addRecord`: a `DownloadRecord` without the generated
`id` and `downloadedAt` fields (`Omit<DownloadRecord, 'id' | 'downloadedAt'>`). -/
structure NewDownload where
  url : String
  title : String
  uploader : String
  thumbnail : String
  duration : Nat
deriving DecidableEq, Repr

/-- `MAX_HISTORY` from the history context. -/
def MAX_HISTORY : Nat := 200

/-- The record built inside `addRecord`: the entry plus the generated id
(`Date.now()` and a random base-36 suffix) and the current timestamp.  The
two generated values come from the environment and are passed explicitly. -/
def mkDownloadRecord (r : NewDownload) (id : String) (now : Nat) : DownloadRecord :=
  { id := id
    url := r.url
    title := r.title
    uploader := r.uploader
    thumbnail := r.thumbnail
    duration := r.duration
    downloadedAt := now }

/-- `addRecord` from the history context (lines 63-75):
`[newRecord, ...history].slice(0, MAX_HISTORY)`. -/
def addRecord (history : List DownloadRecord) (r : NewDownload) (id : String) (now : Nat) :
    List DownloadRecord :=
  (mkDownloadRecord r id now :: history).take MAX_HISTORY

/-- `n` successive `addRecord` calls starting from the empty list, where the
`i`-th call (0-based, oldest first) adds `rs i` with generated id `ids i` at
time `ts i`. -/
def addMany (rs : Nat → NewDownload) (ids : Nat → String) (ts : Nat → Nat) : Nat → List DownloadRecord
  | 0 => []
  | n + 1 => addRecord (addMany rs ids ts n) (rs n) (ids n) (ts n)

/-! ## Download orchestrator (home screen) -/

/-- `AppStatus` from the home screen. -/
inductive AppStatus where
  | idle
  | checking_server
  | fetching_info
  | preview
  | downloading
  | saving
  | success
  | error
deriving DecidableEq, Repr

/-- `\w` or `-`: the character class `[\w-]` of `INSTAGRAM_URL_REGEX`. -/
def isIdentChar (c : Char) : Bool :=
  c.isAlphanum || c = '_' || c = '-'

/-- Strip `p` from the front of `s`, if present. -/
def stripHead (s p : String) : Option String :=
  if strStartsWith s p then some (strDrop s (strLength p)) else none

/-- `INSTAGRAM_URL_REGEX.test` from the home screen (lines 54-55):
`/^https?:\/\/(www\.)?instagram\.com\/(reel|reels|p)\/[\w-]+/`.  The regex is
anchored only at the start, so anything may follow the first identifier
character; backtracking makes the alternation `(reel|reels|p)\/` equivalent
to a `reel/`, `reels/` or `p/` path segment test. -/
def instagramUrlTest (s : String) : Bool :=
  let afterScheme :=
    match stripHead s "https://" with
    | some r => some r
    | none => stripHead s "http://"
  match afterScheme with
  | none => false
  | some r =>
    let r := if strStartsWith r "www." then strDrop r 4 else r
    match stripHead r "instagram.com/" with
    | none => false
    | some p =>
      let afterKind :=
        match stripHead p "reel/" with
        | some t => some t
        | none =>
          match stripHead p "reels/" with
          | some t => some t
          | none => stripHead p "p/"
      match afterKind with
      | none => false
      | some t =>
        match t.data with
        | [] => false
        | c :: _ => isIdentChar c

/-- The home screen's component state: the pieces of `useState` the download
flow reads and writes. -/
structure HomeState where
  url : String
  status : AppStatus
  reelInfo : Option ReelInfo
  errorMessage : String
  serverOnline : Option Bool
  is403 : Bool
deriving DecidableEq, Repr

/-- The `onChangeText` handler of the URL input (lines 362-370): store the
text, clear the inline message, drop `error`/`preview`/`success` back to
`idle`, and discard the held `ReelInfo` when leaving `preview` or `success`
(both `if`s test the pre-edit status). -/
def onChangeText (s : HomeState) (text : String) : HomeState :=
  { s with
    url := text
    errorMessage := ""
    status :=
      if s.status = .error ∨ s.status = .preview ∨ s.status = .success then .idle
      else s.status
    reelInfo :=
      if s.status = .preview ∨ s.status = .success then none else s.reelInfo }

/-- Message set when the trimmed input is empty (line 128). -/
def emptyUrlMessage : String := "Por favor, ingresa una URL."

/-- Message set when the input fails the Instagram URL test (line 132). -/
def invalidUrlMessage : String := "URL no valida. Ingresa un enlace de Instagram Reel."

/-- `handleFetchInfo` from the home screen (lines 122-157), as a function of
the network outcome of `POST /info`.  The returned `Bool` is `true` exactly
when `fetchReelInfo` was invoked (i.e. both validation guards passed).  On a
guard failure only `errorMessage` changes; otherwise the state moves through
`fetching_info` to `preview` on success, or to `error` with the mapped
message (`is403` set iff the failure status is 403). -/
def handleFetchInfo (s : HomeState) (net : HttpResult ReelInfo) : HomeState × Bool :=
  let trimmedUrl := strTrim s.url
  if trimmedUrl = "" then
    ({ s with errorMessage := emptyUrlMessage }, false)
  else if ¬ instagramUrlTest trimmedUrl then
    ({ s with errorMessage := invalidUrlMessage }, false)
  else
    let s1 : HomeState :=
      { s with errorMessage := "", reelInfo := none, is403 := false, status := .fetching_info }
    match fetchReelInfo trimmedUrl net with
    | .ok info => ({ s1 with reelInfo := some info, status := .preview }, true)
    | .error e =>
      ({ s1 with status := .error, errorMessage := e.message, is403 := e.status == 403 }, true)

/-- Which observable operations `handleDownload` performed: the
media-library permission prompt, the native `downloadFileAsync` attempt, the
API-proxied `downloadReelBinary` request, and the gallery save. -/
structure DownloadEffects where
  permissionRequested : Bool
  nativeDownloadAttempted : Bool
  apiDownloadRequested : Bool
  gallerySaveAttempted : Bool
deriving DecidableEq, Repr

/-- No operation performed. -/
def noEffects : DownloadEffects :=
  { permissionRequested := false
    nativeDownloadAttempted := false
    apiDownloadRequested := false
    gallerySaveAttempted := false }

/-- The environment responses consumed by one `handleDownload` run: the
permission outcome, whether the native file download succeeds, the network
outcome of the proxied `POST /download`, and whether
`MediaLibrary.saveToLibraryAsync` succeeds (with the message of the error it
throws otherwise). -/
structure DownloadEnv where
  permissionGranted : Bool
  nativeDownloadOk : Bool
  apiResult : HttpResult Unit
  gallerySaveOk : Bool
  gallerySaveErrorMessage : String
deriving DecidableEq, Repr

/-- The permission-denied message thrown at line 170. -/
def permissionDeniedMessage : String := "Se necesitan permisos para guardar el video."

/-- The tail of `handleDownload` once a temporary file exists (lines
209-219): move to `saving`, save to the gallery (a failure is caught by the
surrounding `try` and becomes `error`), then `success`; the temp-file
cleanup is swallowed and has no observable effect on the state. -/
def saveStep (s0 : HomeState) (env : DownloadEnv) (eff : DownloadEffects) :
    HomeState × DownloadEffects :=
  let s1 : HomeState := { s0 with status := .saving }
  if env.gallerySaveOk then
    ({ s1 with status := .success }, { eff with gallerySaveAttempted := true })
  else
    ({ s1 with status := .error, errorMessage := env.gallerySaveErrorMessage },
      { eff with gallerySaveAttempted := true })

/-- `handleDownload` from the home screen (lines 159-230).  With no held
`ReelInfo` it returns immediately (line 160) leaving the state untouched and
performing nothing.  Otherwise: `downloading`, request permission (denial
throws to `error`), try the native download of `video_url`, fall back to the
API-proxied binary download of the trimmed input URL, then save. -/
def handleDownload (s : HomeState) (env : DownloadEnv) : HomeState × DownloadEffects :=
  match s.reelInfo with
  | none => (s, noEffects)
  | some _info =>
    let s0 : HomeState := { s with status := .downloading, errorMessage := "" }
    if ¬ env.permissionGranted then
      ({ s0 with status := .error, errorMessage := permissionDeniedMessage },
        { noEffects with permissionRequested := true })
    else if env.nativeDownloadOk then
      saveStep s0 env
        { noEffects with permissionRequested := true, nativeDownloadAttempted := true }
    else
      let eff : DownloadEffects :=
        { permissionRequested := true
          nativeDownloadAttempted := true
          apiDownloadRequested := true
          gallerySaveAttempted := false }
      match downloadReelBinary (strTrim s.url) env.apiResult with
      | .ok _ => saveStep s0 env eff
      | .error e => ({ s0 with status := .error, errorMessage := e.message }, eff)

/-! ## Manual cookie import (session screen `handleManualSave`) -/

/-- Parse one Netscape cookie-file line (`line.split('\t')`, accepted when it
has at least 7 fields): `domain, subdomain-flag, path, secure-flag, expiry,
name, value`, using fields 0, 2, 3, 5 and 6. -/
def parseNetscapeLine (line : String) : Option InstagramCookie :=
  match strSplitOn line '\t' with
  | d :: _ :: p :: sec :: _ :: n :: v :: _ =>
    some
      { name := strTrim n
        value := strTrim v
        domain := strTrim d
        path := strTrim p
        secure := strToUpper (strTrim sec) == "TRUE"
        httpOnly := strTrim n == "sessionid" }
  | _ => none

/-- The Netscape-format pass of `handleManualSave`: split into lines, drop
blank lines and `#` comments, keep the lines with at least 7 tab-separated
fields. -/
def manualNetscapeCookies (text : String) : List InstagramCookie :=
  ((strSplitOn text '\n').filter fun l => strTrim l != "" && !strStartsWith l "#").filterMap
    parseNetscapeLine

/-- Parse one `name=value` pair: accepted when `=` occurs at an index greater
than 0; the name and value are trimmed. -/
def parsePair (pair : String) : Option InstagramCookie :=
  match pair.data.findIdx? (· == '=') with
  | none => none
  | some i =>
    if 0 < i then
      let n := strTrim (String.mk (pair.data.take i))
      some
        { name := n
          value := strTrim (String.mk (pair.data.drop (i + 1)))
          domain := ".instagram.com"
          path := "/"
          secure := true
          httpOnly := n == "sessionid" }
    else none

/-- The `name=value` pass of `handleManualSave`:
`text.split(';').map(trim).filter(Boolean)`, then the pairs with `=` past
position 0. -/
def manualPairCookies (text : String) : List InstagramCookie :=
  (((strSplitOn text ';').map strTrim).filter fun p => p != "").filterMap parsePair

/-- The cookie list `handleManualSave` extracts from the (already trimmed)
input: the Netscape pass, falling back to the `name=value` pass when the
former yields nothing. -/
def parseManualCookies (text : String) : List InstagramCookie :=
  let fromLines := manualNetscapeCookies text
  if fromLines.isEmpty then manualPairCookies text else fromLines

/-- The observable result of `handleManualSave` on the session screen. -/
inductive ManualSaveResult where
  | emptyInput
  | parseFailed
  | missingSessionId
  | saved (session : SessionState)
deriving DecidableEq, Repr

/-- `handleManualSave` from the session screen (part_003 lines 43-104,
identically part_002 lines 150-211): trim the input (empty input is
rejected), parse (Netscape lines first, else `name=value` pairs; no cookie
at all is a parse failure), require a `sessionid` cookie with non-empty
value, then save the cookies with the `ds_user_id` value as username. -/
def handleManualSave (input : String) : ManualSaveResult :=
  let text := strTrim input
  if text = "" then .emptyInput
  else
    let cookies := parseManualCookies text
    if cookies.isEmpty then .parseFailed
    else if cookies.any (fun c => c.name == "sessionid" && c.value != "") then
      let dsUser := cookies.find? fun c => c.name == "ds_user_id"
      .saved (saveCookies cookies (dsUser.map fun c => c.value))
    else .missingSessionId

/-! ## Definitions taken from the specification's wording

`claimCookieLine` renders the serialization format exactly as the spec's
sentence states it (fields taken verbatim from the cookie), to be compared
with the source's `cookieLine`. -/

/-- The line format as the claim words it: tab-separated
`domain, includeSubdomains (TRUE iff the domain starts with "."), path,
secure, "0", name, value`, all taken directly from the cookie. -/
def claimCookieLine (c : InstagramCookie) : String :=
  c.domain ++ "\t" ++ (if strStartsWith c.domain "." then "TRUE" else "FALSE") ++ "\t"
    ++ c.path ++ "\t" ++ (if c.secure then "TRUE" else "FALSE") ++ "\t" ++ "0"
    ++ "\t" ++ c.name ++ "\t" ++ c.value

/-- Default an empty domain to `.instagram.com` and an empty path to `/`,
the substitution `cookieLine` applies before serializing. -/
def normalizeCookie (c : InstagramCookie) : InstagramCookie :=
  { c with
    domain := if c.domain = "" then ".instagram.com" else c.domain
    path := if c.path = "" then "/" else c.path }

/-! ## Concrete sample data used by witnesses and counterexamples -/

/-- A sample metadata payload. -/
def sampleReel : ReelInfo :=
  { title := "t", thumbnail := "th", duration := 30, video_url := "vu", uploader := "up" }

/-- An idle home screen holding a valid Reel URL. -/
def homeIdle : HomeState :=
  { url := "https://www.instagram.com/reel/ABC123"
    status := .idle
    reelInfo := none
    errorMessage := ""
    serverOnline := some true
    is403 := false }

/-- An environment whose media-library permission prompt is denied. -/
def permissionDeniedEnv : DownloadEnv :=
  { permissionGranted := false
    nativeDownloadOk := false
    apiResult := .failure
    gallerySaveOk := false
    gallerySaveErrorMessage := "" }

/-- The home state reached by a successful metadata fetch followed by a
download attempt whose permission prompt is denied: status `error` with the
fetched `ReelInfo` still held (this is what makes retry re-download). -/
def errorWithHeldReel : HomeState :=
  (handleDownload (handleFetchInfo homeIdle (.response 200 none sampleReel)).1
    permissionDeniedEnv).1

/-- A home screen in `preview` holding `sampleReel`. -/
def homePreview : HomeState :=
  { url := "https://www.instagram.com/reel/ABC123"
    status := .preview
    reelInfo := some sampleReel
    errorMessage := ""
    serverOnline := some true
    is403 := false }

/-- A `sessionid` cookie with a non-empty value. -/
def sessionIdCookie : InstagramCookie :=
  { name := "sessionid", value := "X", domain := ".instagram.com", path := "/",
    secure := true, httpOnly := true }

/-- A cookie whose domain and path are empty strings (producible by the
manual Netscape import, e.g. a line starting with a tab). -/
def emptyDomainCookie : InstagramCookie :=
  { name := "sessionid", value := "X", domain := "", path := "",
    secure := false, httpOnly := true }

/-- The session produced by manually importing
`"sessionid=ABC123; ds_user_id=42"`. -/
def manualPairSession : SessionState :=
  { cookies :=
      [{ name := "sessionid", value := "ABC123", domain := ".instagram.com", path := "/",
         secure := true, httpOnly := true },
       { name := "ds_user_id", value := "42", domain := ".instagram.com", path := "/",
         secure := true, httpOnly := false }]
    username := some "42" }

/-- The session produced by manually importing one Netscape cookie line. -/
def manualNetscapeSession : SessionState :=
  { cookies :=
      [{ name := "sessionid", value := "ABC123", domain := ".instagram.com", path := "/",
         secure := true, httpOnly := true }]
    username := none }

/-! ## Helper lemmas -/

/-- Any-membership characterization of the logged-in test. -/
theorem any_sessionid_iff (l : List InstagramCookie) :
    (l.any fun c => c.name == "sessionid" && c.value != "") = true ↔
      ∃ c ∈ l, c.name = "sessionid" ∧ c.value ≠ "" := by
  simp [List.any_eq_true, Bool.and_eq_true]

/-- Truncating after a cons absorbs an inner truncation to the same length. -/
theorem take_cons_take {α : Type} (x : α) (l : List α) (m : Nat) :
    (x :: l.take m).take m = (x :: l).take m := by
  cases m with
  | zero => simp
  | succ k =>
    simp only [List.take_succ_cons, List.take_take]
    rw [Nat.min_eq_left (Nat.le_succ k)]

/-- Closed form of `addMany`: the records of the last `min n MAX_HISTORY`
additions, newest first. -/
theorem addMany_eq (rs : Nat → NewDownload) (ids : Nat → String) (ts : Nat → Nat)
    (n : Nat) :
    addMany rs ids ts n =
      (((List.range n).map fun i => mkDownloadRecord (rs i) (ids i) (ts i)).reverse).take
        MAX_HISTORY := by
  induction n with
  | zero => simp [addMany]
  | succ n ih =>
    rw [addMany, ih, addRecord, List.range_succ, List.map_append, List.reverse_append]
    simp only [List.map_cons, List.map_nil, List.reverse_cons, List.reverse_nil,
      List.nil_append, List.cons_append]
    exact take_cons_take _ _ _

/-- `handleFetchInfo` on a guard failure: only the inline message changes and
the fetch flag is `false`. -/
theorem handleFetchInfo_guard (s : HomeState) (net : HttpResult ReelInfo)
    (h : strTrim s.url = "" ∨ instagramUrlTest (strTrim s.url) = false) :
    handleFetchInfo s net =
      ({ s with errorMessage :=
          if strTrim s.url = "" then emptyUrlMessage else invalidUrlMessage }, false) := by
  rcases h with h | h
  · simp [handleFetchInfo, h]
  · by_cases he : strTrim s.url = ""
    · simp [handleFetchInfo, he]
    · simp [handleFetchInfo, he, h]

/-- `handleFetchInfo` when both guards pass: the outcome of the metadata
fetch decides the next state. -/
theorem handleFetchInfo_pass (s : HomeState) (net : HttpResult ReelInfo)
    (h1 : strTrim s.url ≠ "") (h2 : instagramUrlTest (strTrim s.url) = true) :
    handleFetchInfo s net =
      match fetchReelInfo (strTrim s.url) net with
      | .ok info =>
        ({ s with
            errorMessage := ""
            is403 := false
            status := .preview
            reelInfo := some info }, true)
      | .error e =>
        ({ s with
            errorMessage := e.message
            is403 := e.status == 403
            status := .error
            reelInfo := none }, true) := by
  unfold handleFetchInfo
  rw [if_neg h1, if_neg (by simp [h2])]

/-- `onChangeText` never leaves the screen in `preview`. -/
theorem onChangeText_status_ne_preview (s : HomeState) (t : String) :
    (onChangeText s t).status ≠ AppStatus.preview := by
  simp only [onChangeText]
  split
  · simp
  · rename_i h
    intro hc
    exact h (Or.inr (Or.inl hc))

/-! ## Claims -/

/-- C1.  The claim says `fetchInfo`/`downloadBinary` POST a JSON `{url}` body
and include the session's cookie header when present.  The body part holds,
but `fetchReelInfo` and `downloadReelBinary` accept only the URL and always
send exactly one header, `Content-Type`, so the cookie string the home
screen passes as a second argument is silently discarded and no cookie
header is ever attached. -/
theorem c1_requests_carry_no_cookie_header (url : String) :
    infoRequest url =
      { method := "POST"
        path := "/info"
        headers := [("Content-Type", "application/json")]
        body := .jsonUrl url }
    ∧ downloadRequest url =
      { method := "POST"
        path := "/download"
        headers := [("Content-Type", "application/json")]
        body := .jsonUrl url }
    ∧ ((infoRequest url).headers.all fun h => h.1 != "Cookie") = true
    ∧ ((downloadRequest url).headers.all fun h => h.1 != "Cookie") = true :=
  ⟨rfl, rfl, rfl, rfl⟩

/-- C10.  Triggering a download while no `ReelInfo` is held returns
immediately: the state is unchanged and no permission prompt, network call
or file operation happens. -/
theorem c10_download_noop_without_reelInfo (s : HomeState) (env : DownloadEnv)
    (h : s.reelInfo = none) :
    handleDownload s env = (s, noEffects) := by
  simp [handleDownload, h]

/-- C10 witness: a concrete idle state with no held `ReelInfo`. -/
theorem c10_download_noop_without_reelInfo_witness :
    homeIdle.reelInfo = none
    ∧ handleDownload homeIdle permissionDeniedEnv = (homeIdle, noEffects) :=
  ⟨rfl, c10_download_noop_without_reelInfo homeIdle permissionDeniedEnv rfl⟩

/-- C3.  When the trimmed input is empty or fails the Instagram URL test,
triggering a fetch never invokes `fetchReelInfo` (the returned flag is
`false`), leaves the status (and the rest of the state) unchanged, and sets
a non-empty validation message. -/
theorem c3_guard_blocks_fetch (s : HomeState) (net : HttpResult ReelInfo)
    (h : strTrim s.url = "" ∨ instagramUrlTest (strTrim s.url) = false) :
    (handleFetchInfo s net).2 = false
    ∧ (handleFetchInfo s net).1.status = s.status
    ∧ (handleFetchInfo s net).1.reelInfo = s.reelInfo
    ∧ (handleFetchInfo s net).1.url = s.url
    ∧ (handleFetchInfo s net).1.errorMessage ≠ "" := by
  rw [handleFetchInfo_guard s net h]
  refine ⟨rfl, rfl, rfl, rfl, ?_⟩
  split
  · show emptyUrlMessage ≠ ""
    decide
  · show invalidUrlMessage ≠ ""
    decide

/-- C3 witness: a non-Instagram URL in the idle state. -/
theorem c3_guard_blocks_fetch_witness :
    instagramUrlTest (strTrim "https://twitter.com/reel/a") = false
    ∧ (handleFetchInfo { homeIdle with url := "https://twitter.com/reel/a" }
        HttpResult.failure).2 = false
    ∧ (handleFetchInfo { homeIdle with url := "https://twitter.com/reel/a" }
        HttpResult.failure).1.status = AppStatus.idle :=
  ⟨by decide,
    (c3_guard_blocks_fetch { homeIdle with url := "https://twitter.com/reel/a" }
      HttpResult.failure (Or.inr (by decide))).1,
    (c3_guard_blocks_fetch { homeIdle with url := "https://twitter.com/reel/a" }
      HttpResult.failure (Or.inr (by decide))).2.1⟩

/-- C5.  A session is logged in iff it holds a `sessionid` cookie with
non-empty value; saving such a cookie set yields a logged-in session, and
`clearSession` yields a logged-out one. -/
theorem c5_isLoggedIn_iff_sessionid (s : SessionState) (cs : List InstagramCookie)
    (u : Option String) :
    (isLoggedIn s = true ↔ ∃ c ∈ s.cookies, c.name = "sessionid" ∧ c.value ≠ "")
    ∧ ((∃ c ∈ cs, c.name = "sessionid" ∧ c.value ≠ "") → isLoggedIn (saveCookies cs u) = true)
    ∧ isLoggedIn clearSession = false := by
  refine ⟨any_sessionid_iff s.cookies, ?_, by decide⟩
  intro hx
  have h := (any_sessionid_iff cs).mpr hx
  simpa [isLoggedIn, saveCookies] using h

/-- C5 witness: saving a singleton `sessionid` cookie set logs in, clearing
logs out. -/
theorem c5_isLoggedIn_iff_sessionid_witness :
    isLoggedIn (saveCookies [sessionIdCookie] none) = true
    ∧ isLoggedIn clearSession = false :=
  ⟨(c5_isLoggedIn_iff_sessionid clearSession [sessionIdCookie] none).2.1
      ⟨sessionIdCookie, by simp, rfl, by decide⟩,
    (c5_isLoggedIn_iff_sessionid clearSession [] none).2.2⟩

/-- C8.  `checkServerHealth` returns `true` exactly when the response is 2xx
and its JSON body's `status` field equals `"ok"`; transport failures,
timeouts, non-2xx statuses and malformed bodies all yield `false` (the
function is total, hence never throws). -/
theorem c8_health_true_iff_ok (net : HealthNet) :
    checkServerHealth net = true ↔
      ∃ st, net = HealthNet.response st (some (some "ok")) ∧ respOk st = true := by
  cases net with
  | failure => simp [checkServerHealth]
  | response st body =>
    cases body with
    | none => simp [checkServerHealth]
    | some field =>
      by_cases h : respOk st = true
      · simp only [checkServerHealth]
        rw [if_pos h]
        simp only [beq_iff_eq, HealthNet.response.injEq, Option.some.injEq]
        constructor
        · intro hf
          exact ⟨st, ⟨rfl, hf⟩, h⟩
        · rintro ⟨st2, ⟨hst, hf⟩, hok⟩
          exact hf
      · simp [checkServerHealth, h]

/-- C4.  `addRecord` prepends the freshly built record (generated id and
timestamp) and truncates to at most `MAX_HISTORY` entries; 201 successive
additions starting from an empty history leave exactly 200 records, namely
the last 200 additions newest first — the oldest (index 0) is the one
evicted. -/
theorem c4_history_cap (h : List DownloadRecord) (r : NewDownload)
    (id : String) (now : Nat)
    (rs : Nat → NewDownload) (ids : Nat → String) (ts : Nat → Nat) :
    addRecord h r id now = mkDownloadRecord r id now :: h.take (MAX_HISTORY - 1)
    ∧ (addRecord h r id now).length ≤ MAX_HISTORY
    ∧ (addMany rs ids ts 201).length = 200
    ∧ addMany rs ids ts 201 =
        (((List.range 201).map fun i => mkDownloadRecord (rs i) (ids i) (ts i)).reverse).take
          200 := by
  refine ⟨?_, ?_, ?_, addMany_eq rs ids ts 201⟩
  · rw [addRecord, show MAX_HISTORY = 199 + 1 from rfl, List.take_succ_cons]
  · exact List.length_take_le _ _
  · rw [addMany_eq, List.length_take, List.length_reverse, List.length_map,
      List.length_range]
    decide

/-- C6 counterexample.  On a cookie with empty domain and path (producible
by the manual Netscape import) the emitted line is not the claimed
tab-separated rendering of the cookie's own fields: the code first defaults
the domain to `.instagram.com` and the path to `/`. -/
theorem c6_export_counterexample :
    cookiesForApi { cookies := [emptyDomainCookie], username := none } =
      some (cookieLine emptyDomainCookie)
    ∧ cookieLine emptyDomainCookie ≠ claimCookieLine emptyDomainCookie :=
  ⟨rfl, by decide⟩

/-- The source's serialization of a cookie is exactly the claimed format
applied to the default-normalized cookie. -/
theorem cookieLine_eq_claim_normalized (c : InstagramCookie) :
    cookieLine c = claimCookieLine (normalizeCookie c) := rfl

/-- C6 (amended).  `exportForTransport` is absent exactly when the cookie
set is empty; otherwise it is one line per cookie joined by newlines, each
line being the claimed tab-separated format applied after defaulting an
empty domain to `.instagram.com` and an empty path to `/`. -/
theorem c6_export_amended (s : SessionState) :
    (cookiesForApi s = none ↔ s.cookies = [])
    ∧ cookiesForApi s =
        (if s.cookies = [] then none
         else some (strJoin "\n"
            (s.cookies.map fun c => claimCookieLine (normalizeCookie c)))) := by
  obtain ⟨cs, u⟩ := s
  constructor
  · cases cs with
    | nil => simp [cookiesForApi]
    | cons a l => simp [cookiesForApi]
  · cases cs with
    | nil => rfl
    | cons a l => rfl

/-- C7.  Both API operations map a transport failure (network or timeout) to
an error with status 0 and the unreachable-server message, and a non-2xx
response to an error carrying that HTTP status with 422/403/404/500 mapped
to fixed messages and any other status carrying the server detail (or the
generic fallback); a 403 outcome of the metadata fetch additionally sets
the orchestrator's `is403` flag. -/
theorem c7_error_classification (url : String) (st : Nat) (detail : Option String)
    (info : ReelInfo) (fb : String) (s : HomeState) :
    fetchReelInfo url .failure = .error ⟨0, serverUnreachableMessage⟩
    ∧ downloadReelBinary url .failure = .error ⟨0, serverUnreachableMessage⟩
    ∧ (respOk st = false →
        fetchReelInfo url (.response st detail info) =
          .error ⟨st, getErrorMessage st (detail.getD unknownErrorDetail)⟩)
    ∧ (respOk st = false →
        downloadReelBinary url (.response st detail ()) =
          .error ⟨st, getErrorMessage st (detail.getD unknownErrorDetail)⟩)
    ∧ getErrorMessage 422 fb = "URL no valida. Asegurate de que sea un enlace de Instagram Reel."
    ∧ getErrorMessage 403 fb = "Este Reel es privado o requiere inicio de sesion."
    ∧ getErrorMessage 404 fb = "Reel no encontrado. Verifica el enlace e intenta de nuevo."
    ∧ getErrorMessage 500 fb = "Error en el servidor. Intenta de nuevo mas tarde."
    ∧ (st ≠ 422 → st ≠ 403 → st ≠ 404 → st ≠ 500 → getErrorMessage st fb = fb)
    ∧ (strTrim s.url ≠ "" → instagramUrlTest (strTrim s.url) = true →
        (handleFetchInfo s (.response 403 detail info)).1.is403 = true
        ∧ (handleFetchInfo s (.response 403 detail info)).1.status = .error
        ∧ (handleFetchInfo s (.response 403 detail info)).1.errorMessage =
            "Este Reel es privado o requiere inicio de sesion.") := by
  refine ⟨rfl, rfl, ?_, ?_, rfl, rfl, rfl, rfl, ?_, ?_⟩
  · intro hbad
    simp [fetchReelInfo, hbad]
  · intro hbad
    simp [downloadReelBinary, hbad]
  · intro h1 h2 h3 h4
    simp [getErrorMessage, h1, h2, h3, h4]
  · intro h1 h2
    rw [handleFetchInfo_pass s _ h1 h2]
    refine ⟨rfl, rfl, ?_⟩
    show getErrorMessage 403 (detail.getD unknownErrorDetail) = _
    rfl

/-- C7 witness: a concrete 418 response carries its status and detail, a
transport failure carries status 0, and a 403 metadata response on a valid
URL raises the login flag. -/
theorem c7_error_classification_witness :
    respOk 418 = false
    ∧ fetchReelInfo "u" (.response 418 (some "teapot") sampleReel) =
        .error ⟨418, "teapot"⟩
    ∧ fetchReelInfo "u" .failure = .error ⟨0, serverUnreachableMessage⟩
    ∧ (handleFetchInfo homeIdle (.response 403 none sampleReel)).1.is403 = true := by
  refine ⟨by decide, ?_,
    (c7_error_classification "u" 418 none sampleReel "" homeIdle).1, ?_⟩
  · exact ((c7_error_classification "u" 418 (some "teapot") sampleReel "" homeIdle).2.2.1
      (by decide)).trans rfl
  · exact ((c7_error_classification "u" 403 none sampleReel "" homeIdle).2.2.2.2.2.2.2.2.2
      (by decide) (by decide)).1

/-- C9.  The manual cookie import accepts both semicolon-separated pairs and
Netscape lines: `"sessionid=ABC123; ds_user_id=42"` parses to exactly the
two expected cookies, producing a logged-in session with username `"42"`,
and a single Netscape line is also accepted; any input whose parsed cookies
contain no `sessionid` with non-empty value is rejected without saving. -/
theorem c9_manual_import :
    handleManualSave "sessionid=ABC123; ds_user_id=42" = .saved manualPairSession
    ∧ manualPairSession.cookies.length = 2
    ∧ isLoggedIn manualPairSession = true
    ∧ manualPairSession.username = some "42"
    ∧ handleManualSave ".instagram.com\tTRUE\t/\tTRUE\t0\tsessionid\tABC123" =
        .saved manualNetscapeSession
    ∧ (∀ input : String,
        ((parseManualCookies (strTrim input)).all fun c =>
          !(c.name == "sessionid" && c.value != "")) = true →
        ∀ sess, handleManualSave input ≠ .saved sess) := by
  refine ⟨by decide, rfl, rfl, rfl, by decide, ?_⟩
  intro input hall sess
  unfold handleManualSave
  by_cases h1 : strTrim input = ""
  · simp [h1]
  · rw [if_neg h1]
    by_cases h2 : (parseManualCookies (strTrim input)).isEmpty = true
    · rw [if_pos h2]
      exact fun hcon => ManualSaveResult.noConfusion hcon
    · rw [if_neg h2]
      have hany : ¬ ((parseManualCookies (strTrim input)).any fun c =>
          c.name == "sessionid" && c.value != "") = true := by
        intro hb
        obtain ⟨c, hc, hp⟩ := List.any_eq_true.mp hb
        have hcall := List.all_eq_true.mp hall c hc
        rw [hp] at hcall
        exact absurd hcall (by decide)
      rw [if_neg hany]
      exact fun hcon => ManualSaveResult.noConfusion hcon

/-- C9 witness: an otherwise well-formed pair input without `sessionid` is
rejected. -/
theorem c9_manual_import_witness :
    ((parseManualCookies (strTrim "csrftoken=XYZ")).all fun c =>
      !(c.name == "sessionid" && c.value != "")) = true
    ∧ handleManualSave "csrftoken=XYZ" ≠ ManualSaveResult.saved clearSession :=
  ⟨by decide, c9_manual_import.2.2.2.2.2 "csrftoken=XYZ" (by decide) clearSession⟩

/-- C2 counterexample.  A successful fetch followed by a download whose
permission prompt is denied reaches `error` while still holding the fetched
`ReelInfo`; editing the input there does reset to `idle` but does not
discard the held `ReelInfo`, contradicting the claim for the `error` case. -/
theorem c2_edit_counterexample :
    errorWithHeldReel.status = AppStatus.error
    ∧ errorWithHeldReel.reelInfo = some sampleReel
    ∧ (onChangeText errorWithHeldReel "x").status = AppStatus.idle
    ∧ (onChangeText errorWithHeldReel "x").reelInfo = some sampleReel := by
  refine ⟨rfl, rfl, rfl, rfl⟩

/-- C2 (amended).  Editing in `preview` or `success` resets to `idle` and
discards the `ReelInfo`; editing in `error` resets to `idle` and clears the
message but keeps the `ReelInfo`; nevertheless a subsequent fetch can only
reach `preview` holding the metadata returned by that very fetch, so a
previous `ReelInfo` never appears in a new preview. -/
theorem c2_edit_amended (s : HomeState) (t : String) (net : HttpResult ReelInfo) :
    ((s.status = .preview ∨ s.status = .success) →
      (onChangeText s t).status = .idle ∧ (onChangeText s t).reelInfo = none)
    ∧ (s.status = .error →
      (onChangeText s t).status = .idle
      ∧ (onChangeText s t).reelInfo = s.reelInfo
      ∧ (onChangeText s t).errorMessage = "")
    ∧ ((handleFetchInfo (onChangeText s t) net).1.status = .preview →
      ∃ st d p, net = HttpResult.response st d p
        ∧ (handleFetchInfo (onChangeText s t) net).1.reelInfo = some p) := by
  refine ⟨?_, ?_, ?_⟩
  · intro h
    constructor
    · show (if s.status = .error ∨ s.status = .preview ∨ s.status = .success
          then AppStatus.idle else s.status) = .idle
      rw [if_pos (Or.inr h)]
    · show (if s.status = .preview ∨ s.status = .success then none else s.reelInfo) = none
      rw [if_pos h]
  · intro h
    have hnot : ¬ (s.status = .preview ∨ s.status = .success) := by
      rw [h]
      rintro (hc | hc) <;> exact AppStatus.noConfusion hc
    refine ⟨?_, ?_, rfl⟩
    · show (if s.status = .error ∨ s.status = .preview ∨ s.status = .success
          then AppStatus.idle else s.status) = .idle
      rw [if_pos (Or.inl h)]
    · show (if s.status = .preview ∨ s.status = .success then none else s.reelInfo) =
        s.reelInfo
      rw [if_neg hnot]
  · intro hprev
    by_cases hg : strTrim (onChangeText s t).url = ""
        ∨ instagramUrlTest (strTrim (onChangeText s t).url) = false
    · exfalso
      rw [handleFetchInfo_guard _ net hg] at hprev
      exact onChangeText_status_ne_preview s t hprev
    · push_neg at hg
      obtain ⟨hne, htest⟩ := hg
      have htest2 : instagramUrlTest (strTrim (onChangeText s t).url) = true := by
        cases hx : instagramUrlTest (strTrim (onChangeText s t).url) with
        | true => rfl
        | false => exact absurd hx htest
      cases net with
      | failure =>
        rw [handleFetchInfo_pass _ _ hne htest2] at hprev
        simp [fetchReelInfo] at hprev
      | response st d p =>
        by_cases hok : respOk st = true
        · refine ⟨st, d, p, rfl, ?_⟩
          rw [handleFetchInfo_pass _ _ hne htest2]
          simp [fetchReelInfo, hok]
        · exfalso
          rw [handleFetchInfo_pass _ _ hne htest2] at hprev
          simp [fetchReelInfo, hok] at hprev

/-- C2 witness: editing in a concrete `preview` state returns to `idle` with
no held `ReelInfo`. -/
theorem c2_edit_amended_witness :
    homePreview.status = AppStatus.preview
    ∧ (onChangeText homePreview "x").status = AppStatus.idle
    ∧ (onChangeText homePreview "x").reelInfo = none :=
  ⟨rfl, ((c2_edit_amended homePreview "x" HttpResult.failure).1 (Or.inl rfl)).1,
    ((c2_edit_amended homePreview "x" HttpResult.failure).1 (Or.inl rfl)).2⟩

end ReelDownloader
